import Mathlib

/-!
Verification of the signal-attestation record store
(src/programs/signal-attestation/src/lib.rs).

The program persists one immutable `SignalAttestation` record per
(authority, movement_id_hash) pair at a program-derived address (PDA).
Pure data (the record layout, the classification enum, the instruction
parameters) is embedded directly from the Rust source.  The host runtime's
account machinery (PDA derivation, the `init` allocate-or-fail primitive,
transaction rollback) is external to the repository; those parts are
modelled from the spec, as marked in their doc comments.
-/

namespace SigAtt

/-- A 32-byte value (`[u8; 32]` in the source): a list of bytes of length 32.
Byte values are modelled as `Nat`. -/
abbrev Bytes32 := { l : List Nat // l.length = 32 }

/-- A Solana public key, `Pubkey` in the source: 32 raw bytes. -/
abbrev Pubkey := Bytes32

/-- The `Classification` enum from the source, six variants with stable
numeric codes 0-5. -/
inductive Classification
  | Capital
  | Info
  | Velocity
  | Liquidity
  | News
  | Time
  deriving DecidableEq

/-- The numeric code of each variant, as fixed by the `= 0 .. = 5`
discriminants in the source. -/
def Classification.code : Classification → Nat
  | .Capital => 0
  | .Info => 1
  | .Velocity => 2
  | .Liquidity => 3
  | .News => 4
  | .Time => 5

/-- Decoding a classification byte, as generated by the source's derived
`AnchorDeserialize` (Borsh) instance for `Classification`: bytes 0-5 map to
the six variants in declaration order, any other byte is a decode error. -/
def Classification.fromCode : Nat → Option Classification
  | 0 => some .Capital
  | 1 => some .Info
  | 2 => some .Velocity
  | 3 => some .Liquidity
  | 4 => some .News
  | 5 => some .Time
  | _ => none

/-- The `SignalAttestation` account struct from the source.  `u8`/`u16`
fields are `Nat`, the `i64` timestamp is `Int`. -/
structure SignalAttestation where
  signal_hash : Bytes32
  market_id_hash : Bytes32
  classification : Nat
  confidence_bps : Nat
  timestamp : Int
  authority : Pubkey
  bump : Nat
  deriving DecidableEq

/-- The `RecordSignalParams` instruction argument struct from the source. -/
structure RecordSignalParams where
  signal_hash : Bytes32
  market_id_hash : Bytes32
  movement_id_hash : Bytes32
  classification : Nat
  confidence_bps : Nat
  timestamp : Int
  deriving DecidableEq

/-- `ATTESTATION_SIZE` from the source:
8 (discriminator) + 32 + 32 + 1 + 2 + 8 + 32 + 1. -/
def ATTESTATION_SIZE : Nat := 8 + 32 + 32 + 1 + 2 + 8 + 32 + 1

/-- The constant seed tag `b"attestation"` from the `seeds = [...]`
constraint in the source, as raw bytes. -/
def ATTESTATION_SEED : List Nat := "attestation".toList.map Char.toNat

/-- Modelled from the spec: a program-derived address in the host runtime's
address space.  The spec idealises derivation as deterministic and
collision-free over the seed tuple, so an address is identified by its seed
tuple together with its bump byte. -/
structure PdaAddress where
  seeds : List (List Nat)
  bump : Nat
  deriving DecidableEq

/-- Modelled from the spec: the canonical bump byte produced by the host's
deterministic address search (the search starts at 255 and the model's
search always succeeds at its first candidate). -/
def CANONICAL_BUMP : Nat := 255

/-- Modelled from the spec: recomputing an address from a seed tuple and an
explicitly supplied bump byte (the host's `create_program_address`). -/
def create_program_address (seeds : List (List Nat)) (bump : Nat) : PdaAddress :=
  ⟨seeds, bump⟩

/-- Modelled from the spec: the host's deterministic address search
(`find_program_address`), returning the address and the canonical bump. -/
def find_program_address (seeds : List (List Nat)) : PdaAddress × Nat :=
  (⟨seeds, CANONICAL_BUMP⟩, CANONICAL_BUMP)

/-- The seed tuple from the `seeds = [b"attestation", authority.key(),
&params.movement_id_hash]` constraint of `RecordSignal` in the source. -/
def attestation_seeds (authority : Pubkey) (movement_id_hash : Bytes32) :
    List (List Nat) :=
  [ATTESTATION_SEED, authority.val, movement_id_hash.val]

/-- The address (and bump) at which `RecordSignal` allocates the attestation
account: the derivation of `attestation_seeds` through the host search. -/
def derive_attestation_address (authority : Pubkey) (movement_id_hash : Bytes32) :
    PdaAddress × Nat :=
  find_program_address (attestation_seeds authority movement_id_hash)

/-- Modelled from the spec: the persistent account store of the host ledger,
a finite map from addresses to attestation records (association list). -/
abbrev Store := List (PdaAddress × SignalAttestation)

/-- Lookup in the account store. -/
def storeGet (st : Store) (a : PdaAddress) : Option SignalAttestation :=
  match st with
  | [] => none
  | (b, r) :: rest => if b = a then some r else storeGet rest a

/-- The error taxonomy of the spec (section 7).  Only `AlreadyExists` is
reachable in this embedding: the handler in the source has no validation,
and the model's signer and derivation are given as already verified. -/
inductive ProgramError
  | AlreadyExists
  | Unauthorized
  | InvalidDerivation
  | MalformedInput
  deriving DecidableEq

/-- The `record_signal` instruction: the `RecordSignal` account constraints
(the `init` allocate-or-fail step at the derived address, modelled from the
spec's atomic host allocation primitive) followed by the handler body from
the source, which copies the five parameter fields and sets `authority`
from the verified signer and `bump` from the derivation.  On failure the
store is returned unchanged (the host's all-or-nothing transaction
semantics, modelled from the spec). -/
def record_signal (st : Store) (signer : Pubkey) (params : RecordSignalParams) :
    Store × Except ProgramError Unit :=
  match storeGet st (derive_attestation_address signer params.movement_id_hash).1 with
  | some _ => (st, Except.error ProgramError.AlreadyExists)
  | none =>
      (((derive_attestation_address signer params.movement_id_hash).1,
        { signal_hash := params.signal_hash
          market_id_hash := params.market_id_hash
          classification := params.classification
          confidence_bps := params.confidence_bps
          timestamp := params.timestamp
          authority := signer
          bump := (derive_attestation_address signer params.movement_id_hash).2 }) :: st,
       Except.ok ())

/-- The record written by a successful `record_signal` call, as built field
by field in the handler body of the source. -/
def written_record (signer : Pubkey) (params : RecordSignalParams) : SignalAttestation :=
  { signal_hash := params.signal_hash
    market_id_hash := params.market_id_hash
    classification := params.classification
    confidence_bps := params.confidence_bps
    timestamp := params.timestamp
    authority := signer
    bump := (derive_attestation_address signer params.movement_id_hash).2 }

/-- Little-endian encoding of a natural number into `k` bytes. -/
def natLE : Nat → Nat → List Nat
  | 0, _ => []
  | k + 1, n => n % 256 :: natLE k (n / 256)

/-- Borsh little-endian encoding of a `u16` field. -/
def u16le (n : Nat) : List Nat := natLE 2 n

/-- Borsh little-endian two's-complement encoding of an `i64` field. -/
def i64le (t : Int) : List Nat := natLE 8 (t.emod (2 ^ 64)).toNat

/-- The 8-byte account discriminator written by the source's `#[account]`
attribute (the first 8 bytes of a hash of the account name; the concrete
hash value is external to the repository, only its length matters here). -/
def ACCOUNT_DISCRIMINATOR : List Nat := natLE 8 0

/-- The on-chain byte serialization of a `SignalAttestation` account:
8-byte discriminator, then the struct fields in declaration order in their
Borsh encodings (32 + 32 + 1 + 2 + 8 + 32 + 1 bytes). -/
def serializeAttestation (r : SignalAttestation) : List Nat :=
  ACCOUNT_DISCRIMINATOR ++ r.signal_hash.val ++ r.market_id_hash.val ++
    [r.classification % 256] ++ u16le r.confidence_bps ++ i64le r.timestamp ++
    r.authority.val ++ [r.bump % 256]

/-- Unfolding lemma: a call on a free address succeeds and conses the
written record onto the store. -/
theorem record_signal_of_free (st : Store) (signer : Pubkey)
    (params : RecordSignalParams)
    (h : storeGet st (derive_attestation_address signer params.movement_id_hash).1 = none) :
    record_signal st signer params =
      (((derive_attestation_address signer params.movement_id_hash).1,
          written_record signer params) :: st, Except.ok ()) := by
  unfold record_signal written_record
  rw [h]

/-- Unfolding lemma: a call on an occupied address fails with
`AlreadyExists` and leaves the store unchanged. -/
theorem record_signal_of_occupied (st : Store) (signer : Pubkey)
    (params : RecordSignalParams) (r : SignalAttestation)
    (h : storeGet st (derive_attestation_address signer params.movement_id_hash).1 = some r) :
    record_signal st signer params = (st, Except.error ProgramError.AlreadyExists) := by
  unfold record_signal
  rw [h]

/-- Lookup at the head of a fresh store entry. -/
theorem storeGet_cons_self (st : Store) (a : PdaAddress) (r : SignalAttestation) :
    storeGet ((a, r) :: st) a = some r := by
  unfold storeGet
  simp

/-- Distinct movement hashes derive distinct addresses (the model's
idealisation of the collision-free derivation of the spec). -/
theorem derive_attestation_address_inj (signer : Pubkey) (m1 m2 : Bytes32)
    (h : (derive_attestation_address signer m1).1 = (derive_attestation_address signer m2).1) :
    m1 = m2 := by
  unfold derive_attestation_address find_program_address attestation_seeds at h
  injection h with hseeds hbump
  simp at hseeds
  exact Subtype.ext hseeds

/-- Concrete 32-byte sample value (all bytes 0). -/
def zeros32 : Bytes32 := ⟨List.replicate 32 0, by simp⟩

/-- Concrete 32-byte sample value (all bytes 1). -/
def ones32 : Bytes32 := ⟨List.replicate 32 1, by simp⟩

/-- Concrete 32-byte sample value (all bytes 2). -/
def twos32 : Bytes32 := ⟨List.replicate 32 2, by simp⟩

/-- Concrete 32-byte sample value (all bytes 3). -/
def threes32 : Bytes32 := ⟨List.replicate 32 3, by simp⟩

/-- Concrete 32-byte sample value (all bytes 4). -/
def fours32 : Bytes32 := ⟨List.replicate 32 4, by simp⟩

/-- Concrete sample signer (the spec's end-to-end scenario, section 8). -/
def samplePk : Pubkey := zeros32

/-- Concrete sample parameters (the spec's end-to-end scenario:
classification Velocity = 2, confidence 8200 bps, timestamp 1700000000). -/
def sampleParams : RecordSignalParams :=
  { signal_hash := ones32
    market_id_hash := twos32
    movement_id_hash := threes32
    classification := 2
    confidence_bps := 8200
    timestamp := 1700000000 }

/-- Second sample parameter set: same movement hash as `sampleParams`, all
other caller-supplied fields different. -/
def sampleParamsSameMovement : RecordSignalParams :=
  { signal_hash := zeros32
    market_id_hash := fours32
    movement_id_hash := threes32
    classification := 5
    confidence_bps := 1
    timestamp := 42 }

/-- Third sample parameter set: same market hash as `sampleParams`, a
different movement hash. -/
def sampleParamsOtherMovement : RecordSignalParams :=
  { signal_hash := ones32
    market_id_hash := twos32
    movement_id_hash := fours32
    classification := 3
    confidence_bps := 9000
    timestamp := 1700000001 }

/-- The address of the sample attestation. -/
def sampleAddr : PdaAddress :=
  (derive_attestation_address samplePk sampleParams.movement_id_hash).1

/-- A store already holding the sample attestation. -/
def occupiedStore : Store := (record_signal [] samplePk sampleParams).1

/-- Claim C1: for every (authority, movement_id_hash) pair, calling
`record_signal` twice with the same pair (the second call may differ in
every other parameter): the first call succeeds, the second fails with
`AlreadyExists` and touches nothing, and the record stored after both calls
is the result of the first call only. -/
theorem record_signal_write_once (st : Store) (signer : Pubkey)
    (p1 p2 : RecordSignalParams)
    (hsame : p2.movement_id_hash = p1.movement_id_hash)
    (hfree : storeGet st (derive_attestation_address signer p1.movement_id_hash).1 = none) :
    (record_signal st signer p1).2 = Except.ok () ∧
    (record_signal (record_signal st signer p1).1 signer p2).2 =
      Except.error ProgramError.AlreadyExists ∧
    (record_signal (record_signal st signer p1).1 signer p2).1 =
      (record_signal st signer p1).1 ∧
    storeGet (record_signal (record_signal st signer p1).1 signer p2).1
        (derive_attestation_address signer p1.movement_id_hash).1 =
      some (written_record signer p1) := by
  have h1 := record_signal_of_free st signer p1 hfree
  have hocc : storeGet (record_signal st signer p1).1
      (derive_attestation_address signer p2.movement_id_hash).1 =
      some (written_record signer p1) := by
    rw [h1, hsame]
    exact storeGet_cons_self st _ _
  have h2 := record_signal_of_occupied (record_signal st signer p1).1 signer p2
    (written_record signer p1) hocc
  refine ⟨by rw [h1], by rw [h2], by rw [h2], ?_⟩
  rw [h2]
  rw [← hsame]
  exact hocc

/-- Witness for C1: from the empty store, the sample first call succeeds and
the repeat call with the same pair fails with `AlreadyExists` without
changing the store. -/
theorem record_signal_write_once_witness :
    (record_signal [] samplePk sampleParams).2 = Except.ok () ∧
    (record_signal (record_signal [] samplePk sampleParams).1 samplePk
        sampleParamsSameMovement).2 = Except.error ProgramError.AlreadyExists ∧
    (record_signal (record_signal [] samplePk sampleParams).1 samplePk
        sampleParamsSameMovement).1 = (record_signal [] samplePk sampleParams).1 := by
  have h := record_signal_write_once [] samplePk sampleParams sampleParamsSameMovement
    rfl rfl
  exact ⟨h.1, h.2.1, h.2.2.1⟩

/-- Claim C2: a single successful `record_signal` call stores a record whose
`signal_hash`, `market_id_hash`, `classification`, `confidence_bps` and
`timestamp` equal the input fields verbatim, whose `authority` is the
verified signer, and whose `bump` is the value produced by the address
derivation. -/
theorem record_signal_stores_inputs (st : Store) (signer : Pubkey)
    (params : RecordSignalParams)
    (hfree : storeGet st (derive_attestation_address signer params.movement_id_hash).1 = none) :
    (record_signal st signer params).2 = Except.ok () ∧
    storeGet (record_signal st signer params).1
        (derive_attestation_address signer params.movement_id_hash).1 =
      some { signal_hash := params.signal_hash
             market_id_hash := params.market_id_hash
             classification := params.classification
             confidence_bps := params.confidence_bps
             timestamp := params.timestamp
             authority := signer
             bump := (derive_attestation_address signer params.movement_id_hash).2 } := by
  have h1 := record_signal_of_free st signer params hfree
  refine ⟨by rw [h1], ?_⟩
  rw [h1]
  exact storeGet_cons_self st _ _

/-- Witness for C2: the sample call from the empty store succeeds and stores
exactly the expected record. -/
theorem record_signal_stores_inputs_witness :
    (record_signal [] samplePk sampleParams).2 = Except.ok () ∧
    storeGet (record_signal [] samplePk sampleParams).1
        (derive_attestation_address samplePk sampleParams.movement_id_hash).1 =
      some { signal_hash := sampleParams.signal_hash
             market_id_hash := sampleParams.market_id_hash
             classification := sampleParams.classification
             confidence_bps := sampleParams.confidence_bps
             timestamp := sampleParams.timestamp
             authority := samplePk
             bump := (derive_attestation_address samplePk sampleParams.movement_id_hash).2 } :=
  record_signal_stores_inputs [] samplePk sampleParams rfl

/-- Claim C3: the stored `authority` is always the actual signer: any record
present after a `record_signal` call that was not present before it has
`authority` equal to the signer, whatever the caller-supplied parameters
are; hence two invocations by the same signer store the same authority, and
no parameter value can set it to anything else. -/
theorem record_signal_authority_is_signer (st : Store) (signer : Pubkey)
    (params : RecordSignalParams) (a : PdaAddress) (r : SignalAttestation)
    (hold : storeGet st a = none)
    (hnew : storeGet (record_signal st signer params).1 a = some r) :
    r.authority = signer := by
  cases hocc : storeGet st (derive_attestation_address signer params.movement_id_hash).1 with
  | some r0 =>
      rw [record_signal_of_occupied st signer params r0 hocc] at hnew
      simp only at hnew
      rw [hold] at hnew
      cases hnew
  | none =>
      rw [record_signal_of_free st signer params hocc] at hnew
      simp only [storeGet] at hnew
      by_cases hab : (derive_attestation_address signer params.movement_id_hash).1 = a
      · rw [if_pos hab] at hnew
        injection hnew with hr
        rw [← hr]
        rfl
      · rw [if_neg hab] at hnew
        rw [hold] at hnew
        cases hnew

/-- Witness for C3: the record created by the sample call carries the sample
signer as its authority. -/
theorem record_signal_authority_is_signer_witness :
    (written_record samplePk sampleParams).authority = samplePk :=
  record_signal_authority_is_signer [] samplePk sampleParams sampleAddr
    (written_record samplePk sampleParams) rfl (by decide)

/-- Claim C4: the storage address is the deterministic derivation of exactly
the seed tuple (constant tag "attestation" as bytes, authority key bytes,
movement hash bytes) in that order: the address equals a fixed function of
that tuple, so the same tuple always yields the same address. -/
theorem derive_attestation_address_tuple (authority : Pubkey) (movement : Bytes32) :
    (derive_attestation_address authority movement).1 =
      PdaAddress.mk ["attestation".toList.map Char.toNat, authority.val, movement.val]
        CANONICAL_BUMP :=
  rfl

/-- Sample parameters with classification byte 6, outside the enum's 0-5
range. -/
def paramsClass6 : RecordSignalParams :=
  { signal_hash := ones32
    market_id_hash := twos32
    movement_id_hash := threes32
    classification := 6
    confidence_bps := 5000
    timestamp := 1700000000 }

/-- Claim C5 (code bug): the decode map of the derived deserializer does map
codes 0-5 to the six variants in order and rejects byte 6, but the handler
in the source performs no classification validation at all: the call with
classification byte 6 succeeds (no MalformedInput) and stores the byte 6
verbatim. -/
theorem record_signal_accepts_classification_six :
    (∀ c : Classification, Classification.fromCode c.code = some c) ∧
    Classification.fromCode 6 = none ∧
    (record_signal [] samplePk paramsClass6).2 = Except.ok () ∧
    storeGet (record_signal [] samplePk paramsClass6).1
        (derive_attestation_address samplePk paramsClass6.movement_id_hash).1 =
      some (written_record samplePk paramsClass6) ∧
    (written_record samplePk paramsClass6).classification = 6 := by
  refine ⟨fun c => by cases c <;> rfl, rfl, rfl, by decide, rfl⟩

/-- Sample parameters with confidence 10001 bps, above the 10000 bound. -/
def paramsConf10001 : RecordSignalParams :=
  { signal_hash := ones32
    market_id_hash := twos32
    movement_id_hash := threes32
    classification := 2
    confidence_bps := 10001
    timestamp := 1700000000 }

/-- Claim C6 (code bug): the handler in the source performs no bound check
on `confidence_bps`: the call with 10001 basis points succeeds (no
MalformedInput) and stores 10001 verbatim. -/
theorem record_signal_accepts_confidence_10001 :
    10000 < paramsConf10001.confidence_bps ∧
    (record_signal [] samplePk paramsConf10001).2 = Except.ok () ∧
    storeGet (record_signal [] samplePk paramsConf10001).1
        (derive_attestation_address samplePk paramsConf10001.movement_id_hash).1 =
      some (written_record samplePk paramsConf10001) ∧
    (written_record samplePk paramsConf10001).confidence_bps = 10001 := by
  refine ⟨by decide, rfl, by decide, rfl⟩

/-- Length of the little-endian byte encoding. -/
theorem natLE_length (k n : Nat) : (natLE k n).length = k := by
  induction k generalizing n with
  | zero => rfl
  | succ k ih => simp [natLE, ih]

/-- Claim C7: every persisted record serializes to exactly
`ATTESTATION_SIZE` = 116 bytes, independent of field values: an 8-byte tag,
then 32-byte signal_hash, 32-byte market (subject) hash, 1-byte
classification, 2-byte confidence, 8-byte timestamp, 32-byte authority and
1-byte bump, in that order. -/
theorem serializeAttestation_length (r : SignalAttestation) :
    (serializeAttestation r).length = ATTESTATION_SIZE ∧ ATTESTATION_SIZE = 116 := by
  constructor
  · simp [serializeAttestation, ACCOUNT_DISCRIMINATOR, u16le, i64le, natLE_length,
      r.signal_hash.property, r.market_id_hash.property, r.authority.property,
      ATTESTATION_SIZE]
  · rfl

/-- Claim C8: address derivation round-trips through the stored bump: if a
`record_signal` call succeeded and stored record `r`, then recomputing the
address from the same seed tuple and the stored `r.bump` yields exactly the
address at which the record was allocated. -/
theorem rederive_with_stored_bump (st : Store) (signer : Pubkey)
    (params : RecordSignalParams) (r : SignalAttestation)
    (hok : (record_signal st signer params).2 = Except.ok ())
    (hget : storeGet (record_signal st signer params).1
        (derive_attestation_address signer params.movement_id_hash).1 = some r) :
    create_program_address (attestation_seeds signer params.movement_id_hash) r.bump =
      (derive_attestation_address signer params.movement_id_hash).1 := by
  cases hocc : storeGet st (derive_attestation_address signer params.movement_id_hash).1 with
  | some r0 =>
      rw [record_signal_of_occupied st signer params r0 hocc] at hok
      cases hok
  | none =>
      rw [record_signal_of_free st signer params hocc] at hget
      rw [storeGet_cons_self st _ _] at hget
      injection hget with hr
      rw [← hr]
      rfl

/-- Witness for C8: re-deriving the sample record's address from its stored
bump reproduces the allocation address. -/
theorem rederive_with_stored_bump_witness :
    create_program_address (attestation_seeds samplePk sampleParams.movement_id_hash)
        (written_record samplePk sampleParams).bump =
      (derive_attestation_address samplePk sampleParams.movement_id_hash).1 :=
  rederive_with_stored_bump [] samplePk sampleParams
    (written_record samplePk sampleParams) rfl (by decide)

/-- Claim C9: every failure of `record_signal` leaves the store exactly as
it was before the call (no partial write). -/
theorem record_signal_no_partial_write_on_error (st : Store) (signer : Pubkey)
    (params : RecordSignalParams) (e : ProgramError)
    (h : (record_signal st signer params).2 = Except.error e) :
    (record_signal st signer params).1 = st := by
  cases hocc : storeGet st (derive_attestation_address signer params.movement_id_hash).1 with
  | some r0 =>
      rw [record_signal_of_occupied st signer params r0 hocc]
  | none =>
      rw [record_signal_of_free st signer params hocc] at h
      cases h

/-- Witness for C9: the failing repeat call on the occupied sample store
leaves the store unchanged. -/
theorem record_signal_no_partial_write_on_error_witness :
    (record_signal occupiedStore samplePk sampleParams).1 = occupiedStore :=
  record_signal_no_partial_write_on_error occupiedStore samplePk sampleParams
    ProgramError.AlreadyExists rfl

/-- Claim C10: the derived address depends only on the signer and
`movement_id_hash`, not on the stored `market_id_hash`: two calls by the
same signer with equal market hashes but distinct movement hashes derive
distinct addresses, both succeed, and each of the two resulting records
stores that same market hash. -/
theorem address_independent_of_market_id (st : Store) (signer : Pubkey)
    (p1 p2 : RecordSignalParams)
    (hmkt : p1.market_id_hash = p2.market_id_hash)
    (hmov : p1.movement_id_hash ≠ p2.movement_id_hash)
    (hfree1 : storeGet st (derive_attestation_address signer p1.movement_id_hash).1 = none)
    (hfree2 : storeGet st (derive_attestation_address signer p2.movement_id_hash).1 = none) :
    (derive_attestation_address signer p1.movement_id_hash).1 ≠
      (derive_attestation_address signer p2.movement_id_hash).1 ∧
    (record_signal st signer p1).2 = Except.ok () ∧
    (record_signal (record_signal st signer p1).1 signer p2).2 = Except.ok () ∧
    storeGet (record_signal (record_signal st signer p1).1 signer p2).1
        (derive_attestation_address signer p1.movement_id_hash).1 =
      some (written_record signer p1) ∧
    storeGet (record_signal (record_signal st signer p1).1 signer p2).1
        (derive_attestation_address signer p2.movement_id_hash).1 =
      some (written_record signer p2) ∧
    (written_record signer p1).market_id_hash = (written_record signer p2).market_id_hash := by
  have haddr : (derive_attestation_address signer p1.movement_id_hash).1 ≠
      (derive_attestation_address signer p2.movement_id_hash).1 :=
    fun h => hmov (derive_attestation_address_inj signer _ _ h)
  have h1 := record_signal_of_free st signer p1 hfree1
  have hfree2' : storeGet (record_signal st signer p1).1
      (derive_attestation_address signer p2.movement_id_hash).1 = none := by
    rw [h1]
    simp only [storeGet]
    rw [if_neg haddr]
    exact hfree2
  have h2 := record_signal_of_free (record_signal st signer p1).1 signer p2 hfree2'
  refine ⟨haddr, by rw [h1], by rw [h2], ?_, ?_, hmkt⟩
  · rw [h2]
    simp only [storeGet]
    rw [if_neg (fun h => haddr h.symm)]
    rw [h1]
    exact storeGet_cons_self st _ _
  · rw [h2]
    exact storeGet_cons_self _ _ _

/-- Witness for C10: the sample signer records two attestations with the
same market hash and different movement hashes; both calls succeed at
distinct addresses. -/
theorem address_independent_of_market_id_witness :
    (derive_attestation_address samplePk sampleParams.movement_id_hash).1 ≠
      (derive_attestation_address samplePk sampleParamsOtherMovement.movement_id_hash).1 ∧
    (record_signal [] samplePk sampleParams).2 = Except.ok () ∧
    (record_signal (record_signal [] samplePk sampleParams).1 samplePk
        sampleParamsOtherMovement).2 = Except.ok () := by
  have h := address_independent_of_market_id [] samplePk sampleParams
    sampleParamsOtherMovement rfl (by decide) rfl rfl
  exact ⟨h.1, h.2.1, h.2.2.1⟩

end SigAtt
